import Mathlib

/-!
Verification of the `WizeService` provider registry and the `WizePreview`
toggle from `src/vs/workbench/parts/wize/electron-browser/wizeEditor.ts` and
the wize preview actions file.

The registry is a single-threaded, synchronous object: we embed it as a
state type (`WizeState`) and model each mutation entry point
(`registerWizeProvider`, the `activeProvider` setter, and the disposable
returned by `registerWizeProvider`) as a function from state to an
`OpResult` carrying the resulting state, the events fired on
`_onDidChangeProvider` during the call, and — when the TypeScript code
throws — the error together with the (possibly partially mutated) state at
the moment of the throw.

Providers are opaque JavaScript objects compared with `===` (indexOf) and
carrying a string `id`.  We model object identity with a `pid : Nat` token:
two `WizeProvider` values are equal exactly when they denote the same
JavaScript object.
-/

/-- A provider object: `pid` models JavaScript object identity, `id` is the
provider's identifier string read by the context key. -/
structure WizeProvider where
  pid : Nat
  id : String
deriving DecidableEq, Repr

/-- The mutable fields of `WizeService`: `_providers`, `_activeProvider`
and the value held by `activeProviderContextKey`. -/
structure WizeState where
  _providers : List WizeProvider
  _activeProvider : Option WizeProvider
  contextKey : Option String
deriving DecidableEq, Repr

/-- The `providers` getter: `return [...this._providers]` — a defensive
copy, which for an immutable Lean list is the list itself. -/
def WizeState.providers (s : WizeState) : List WizeProvider :=
  s._providers

/-- The `activeProvider` getter: `return this._activeProvider`. -/
def WizeState.activeProvider (s : WizeState) : Option WizeProvider :=
  s._activeProvider

/-- One event fired on `_onDidChangeProvider`: the provider value passed to
`fire`, together with the registry state at the moment of dispatch
(observers run synchronously, inline, right at the `fire` call). -/
structure Fire where
  value : WizeProvider
  snapshot : WizeState
deriving DecidableEq, Repr

/-- The two `throw new Error(...)` sites of the `activeProvider` setter. -/
inductive WizeError where
  | invalidProvider
  | providerNotRegistered
deriving DecidableEq, Repr

/-- Outcome of one mutation entry point: normal return, or a thrown error.
Both carry the state after the call (a throw does not roll back the
mutations already performed) and the list of events fired during it. -/
inductive OpResult where
  | ok (s : WizeState) (fired : List Fire)
  | err (e : WizeError) (s : WizeState) (fired : List Fire)
deriving DecidableEq, Repr

/-- The state after the call, whether it returned or threw. -/
def OpResult.state : OpResult → WizeState
  | .ok s _ => s
  | .err _ s _ => s

/-- The events fired during the call. -/
def OpResult.fired : OpResult → List Fire
  | .ok _ f => f
  | .err _ _ f => f

/-- The thrown error, if any. -/
def OpResult.errorOf : OpResult → Option WizeError
  | .ok _ _ => none
  | .err e _ _ => some e

/-- The `activeProvider` setter (wizeEditor.ts lines 172–184):
throws `invalid provider` when the argument is falsy; throws
`Provider not registered` when `indexOf` misses; otherwise assigns
`_activeProvider`, sets the context key to `provider.id`, and fires the
emitter — after both assignments, so the fired snapshot is the new state. -/
def setActiveProvider (s : WizeState) (provider : Option WizeProvider) : OpResult :=
  match provider with
  | none => .err .invalidProvider s []
  | some p =>
    if p ∈ s._providers then
      let s2 : WizeState := ⟨s._providers, some p, some p.id⟩
      .ok s2 [⟨p, s2⟩]
    else
      .err .providerNotRegistered s []

/-- `registerWizeProvider` (lines 217–223): prepends the provider to
`_providers`; when the post-insert length is 1 it runs the
`activeProvider` setter on the new provider. -/
def registerWizeProvider (s : WizeState) (p : WizeProvider) : OpResult :=
  let s1 : WizeState := { s with _providers := p :: s._providers }
  if s1._providers.length = 1 then
    setActiveProvider s1 (some p)
  else
    .ok s1 []

/-- The disposable returned by `registerWizeProvider` (lines 224–236),
closed over `p`: if `indexOf` misses it returns; otherwise it splices the
first occurrence of `p` out and, when `p` was the active provider, assigns
`activeProvider = this._providers[0]` — the head of the spliced list, or
`undefined` when the list became empty. -/
def releaseHandle (s : WizeState) (p : WizeProvider) : OpResult :=
  if p ∈ s._providers then
    let ps := s._providers.erase p
    let s1 : WizeState := { s with _providers := ps }
    if s1._activeProvider = some p then
      setActiveProvider s1 ps.head?
    else
      .ok s1 []
  else
    .ok s []

/-- Constructor state: empty provider list, no active provider, context key
created with `void 0`. -/
def initialState : WizeState :=
  ⟨[], none, none⟩

/-- A whole sequence of `registerWizeProvider` calls, keeping only states. -/
def registerAll (s : WizeState) (ps : List WizeProvider) : WizeState :=
  ps.foldl (fun st p => (registerWizeProvider st p).state) s

/-! ### The `WizePreview` static class (wize preview actions file, lines 13–23)

`_enabled` is a `static readonly` field initialized at class-load time from
`window.localStorage.getItem('enablePreviewWize') === 'true'`; the static
getter returns that cached field, and the static setter writes only to
`localStorage`.  We model `localStorage` as a map `String → Option String`
and class load as `loadWizePreview`. -/

/-- The cached `static readonly _enabled` field of `WizePreview`. -/
structure WizePreview where
  _enabled : Bool
deriving DecidableEq, Repr

/-- The localStorage key used by `WizePreview`. -/
def wizePreviewKey : String := "enablePreviewWize"

/-- Class load: `_enabled = window.localStorage.getItem('enablePreviewWize') === 'true'`. -/
def loadWizePreview (storage : String → Option String) : WizePreview :=
  ⟨storage wizePreviewKey == some "true"⟩

/-- The static getter: `return this._enabled`. -/
def WizePreview.enabled (c : WizePreview) : Bool :=
  c._enabled

/-- The static setter: `window.localStorage.setItem('enablePreviewWize', enabled ? 'true' : 'false')`.
It returns the (unchanged) class state and the updated storage. -/
def WizePreview.setEnabled (c : WizePreview) (storage : String → Option String)
    (b : Bool) : WizePreview × (String → Option String) :=
  (c, fun k => if k = wizePreviewKey then some (if b then "true" else "false") else storage k)

/-! ### Helper lemmas -/

/-- The `activeProvider` setter never touches `_providers`. -/
theorem setActiveProvider_state_providers (s : WizeState) (pr : Option WizeProvider) :
    (setActiveProvider s pr).state._providers = s._providers := by
  match pr with
  | none => rfl
  | some p =>
    by_cases h : p ∈ s._providers <;> simp [setActiveProvider, h, OpResult.state]

/-- `registerWizeProvider` always prepends to `_providers`. -/
theorem registerWizeProvider_state_providers (s : WizeState) (p : WizeProvider) :
    (registerWizeProvider s p).state._providers = p :: s._providers := by
  unfold registerWizeProvider
  dsimp only
  split
  · exact setActiveProvider_state_providers _ _
  · rfl

/-- Successful `activeProvider` assignment, spelled out. -/
theorem setActiveProvider_mem (s : WizeState) (p : WizeProvider) (h : p ∈ s._providers) :
    setActiveProvider s (some p) =
      .ok ⟨s._providers, some p, some p.id⟩ [⟨p, ⟨s._providers, some p, some p.id⟩⟩] := by
  simp [setActiveProvider, h]

/-- Every event fired by the `activeProvider` setter carries the state at
dispatch time, which already holds the fired provider and its id. -/
theorem setActiveProvider_fired_consistent (s : WizeState) (pr : Option WizeProvider) :
    ∀ f ∈ (setActiveProvider s pr).fired,
      f.snapshot._activeProvider = some f.value ∧
      f.snapshot.contextKey = some f.value.id ∧
      f.snapshot = (setActiveProvider s pr).state := by
  match pr with
  | none => intro f hf; simp [setActiveProvider, OpResult.fired] at hf
  | some p =>
    intro f hf
    by_cases h : p ∈ s._providers <;>
      simp [setActiveProvider, h, OpResult.fired, OpResult.state] at hf ⊢
    simp [hf]

/-- `releaseHandle` on a provider that is in the list always leaves
`_providers` spliced, whether the setter call inside succeeds or throws. -/
theorem releaseHandle_state_providers (s : WizeState) (p : WizeProvider)
    (h : p ∈ s._providers) :
    (releaseHandle s p).state._providers = s._providers.erase p := by
  unfold releaseHandle
  rw [if_pos h]
  dsimp only
  split
  · exact setActiveProvider_state_providers _ _
  · rfl

/-- `releaseHandle` on a provider that is not in the list is a no-op. -/
theorem releaseHandle_not_mem (s : WizeState) (p : WizeProvider)
    (h : p ∉ s._providers) :
    releaseHandle s p = .ok s [] := by
  unfold releaseHandle
  rw [if_neg h]

/-! ### Concrete providers for the closed theorems below -/

/-- A concrete provider object with id `a`. -/
def pA : WizeProvider := ⟨0, "a"⟩

/-- A concrete provider object with id `b`. -/
def pB : WizeProvider := ⟨1, "b"⟩

/-! ### Claims -/

/-- C3: the `activeProvider` setter throws `invalid provider` exactly when
the argument is unset, throws `Provider not registered` exactly when the
argument is a provider missing from `_providers`, and on every throw the
state is unchanged and no event fires. -/
theorem claim_C3_setActive_errors (s : WizeState) (provider : Option WizeProvider) :
    ((setActiveProvider s provider).errorOf = some .invalidProvider ↔ provider = none) ∧
    ((setActiveProvider s provider).errorOf = some .providerNotRegistered ↔
      ∃ p, provider = some p ∧ p ∉ s._providers) ∧
    (∀ e st f, setActiveProvider s provider = .err e st f → st = s ∧ f = []) := by
  match provider with
  | none =>
    simp [setActiveProvider, OpResult.errorOf]
    exact fun e st f h1 h2 h3 => ⟨h2.symm, h3⟩
  | some p =>
    by_cases h : p ∈ s._providers
    · simp [setActiveProvider, h, OpResult.errorOf]
    · simp [setActiveProvider, h, OpResult.errorOf]
      exact fun e st f h1 h2 h3 => ⟨h2.symm, h3⟩

theorem claim_C3_witness :
    (setActiveProvider initialState (some pA)).errorOf = some WizeError.providerNotRegistered ∧
    (initialState = initialState ∧ ([] : List Fire) = []) :=
  ⟨(claim_C3_setActive_errors initialState (some pA)).2.1.mpr ⟨pA, rfl, by decide⟩,
   (claim_C3_setActive_errors initialState none).2.2 .invalidProvider initialState [] rfl⟩

/-- C4: registering into an empty list makes the new provider active with
exactly one event carrying it; registering into a non-empty list leaves
the active provider and context key unchanged and fires nothing. -/
theorem claim_C4_register_first_and_later (s : WizeState) (p : WizeProvider) :
    (s._providers = [] →
      registerWizeProvider s p =
        .ok ⟨[p], some p, some p.id⟩ [⟨p, ⟨[p], some p, some p.id⟩⟩]) ∧
    (s._providers ≠ [] →
      registerWizeProvider s p =
        .ok ⟨p :: s._providers, s._activeProvider, s.contextKey⟩ []) := by
  obtain ⟨ps, ap, ck⟩ := s
  constructor
  · intro h
    simp only at h
    subst h
    simp [registerWizeProvider, setActiveProvider]
  · intro h
    simp only at h
    simp [registerWizeProvider, h]

theorem claim_C4_witness :
    registerWizeProvider initialState pA =
      .ok ⟨[pA], some pA, some pA.id⟩ [⟨pA, ⟨[pA], some pA, some pA.id⟩⟩] ∧
    registerWizeProvider ⟨[pA], some pA, some "a"⟩ pB =
      .ok ⟨[pB, pA], some pA, some "a"⟩ [] :=
  ⟨(claim_C4_register_first_and_later initialState pA).1 rfl,
   (claim_C4_register_first_and_later ⟨[pA], some pA, some "a"⟩ pB).2 (by decide)⟩

/-- Folding `registerWizeProvider` over a call sequence accumulates the
providers in reverse order in front of the start state's list. -/
theorem registerAll_providers (ps : List WizeProvider) :
    ∀ s : WizeState, (registerAll s ps)._providers = ps.reverse ++ s._providers := by
  induction ps with
  | nil => intro s; simp [registerAll]
  | cons p ps ih =>
    intro s
    show (registerAll ((registerWizeProvider s p).state) ps)._providers = _
    rw [ih, registerWizeProvider_state_providers]
    simp

/-- C5: after any sequence of `registerWizeProvider` calls from the
constructor state, the `providers` getter lists the providers in reverse
registration order, because each call prepends to `_providers`. -/
theorem claim_C5_providers_reverse_order (ps : List WizeProvider) :
    (registerAll initialState ps).providers = ps.reverse ∧
    (∀ s p, (registerWizeProvider s p).state.providers = p :: s.providers) := by
  constructor
  · rw [WizeState.providers, registerAll_providers]
    simp [initialState]
  · intro s p
    rw [WizeState.providers, WizeState.providers, registerWizeProvider_state_providers]

/-- C6: every successful `activeProvider` assignment stores the provider,
sets the context key to its id, and fires exactly one event carrying it —
with no special case for re-assigning the already-active provider. -/
theorem claim_C6_setActive_success (s : WizeState) (p : WizeProvider)
    (h : p ∈ s._providers) :
    setActiveProvider s (some p) =
      .ok ⟨s._providers, some p, some p.id⟩ [⟨p, ⟨s._providers, some p, some p.id⟩⟩] :=
  setActiveProvider_mem s p h

theorem claim_C6_witness :
    setActiveProvider ⟨[pA], some pA, some "a"⟩ (some pA) =
      .ok ⟨[pA], some pA, some "a"⟩ [⟨pA, ⟨[pA], some pA, some "a"⟩⟩] :=
  claim_C6_setActive_success ⟨[pA], some pA, some "a"⟩ pA (by decide)

/-- C8: releasing a registered provider that is not the active one splices
only that provider out and returns without touching `_activeProvider` or
the context key and without firing any event. -/
theorem claim_C8_release_inactive (s : WizeState) (p : WizeProvider)
    (hmem : p ∈ s._providers) (hact : s._activeProvider ≠ some p) :
    releaseHandle s p =
      .ok ⟨s._providers.erase p, s._activeProvider, s.contextKey⟩ [] := by
  obtain ⟨ps, ap, ck⟩ := s
  unfold releaseHandle
  rw [if_pos hmem]
  dsimp only
  rw [if_neg hact]

theorem claim_C8_witness :
    releaseHandle ⟨[pB, pA], some pA, some "a"⟩ pB =
      .ok ⟨[pA], some pA, some "a"⟩ [] :=
  claim_C8_release_inactive ⟨[pB, pA], some pA, some "a"⟩ pB (by decide) (by decide)

/-- C1: the nonempty-remainder half of the claim holds (releasing the
active provider promotes the new front and fires one event carrying it),
but the empty-remainder half fails on the code: releasing the last,
active provider runs `activeProvider = this._providers[0]` with the list
already empty, so the setter throws `invalid provider` — the list stays
spliced, `_activeProvider` keeps the removed provider, and no event
fires, instead of the claimed unset transition with one notification. -/
theorem claim_C1_release_active_last_throws :
    releaseHandle ⟨[pB, pA], some pB, some "b"⟩ pB =
      .ok ⟨[pA], some pA, some "a"⟩ [⟨pA, ⟨[pA], some pA, some "a"⟩⟩] ∧
    releaseHandle ⟨[pA], some pA, some "a"⟩ pA =
      .err .invalidProvider ⟨[], some pA, some "a"⟩ [] := by
  constructor <;> rfl

/-- C2: the no-stale-reference invariant fails on a reachable run:
register `pA`, invoke its release handle (which splices the list and then
throws from the setter), and invoke the handle once more — the second
invocation completes normally as a no-op, yet afterwards `_providers` is
empty while `_activeProvider` still holds the removed `pA`. -/
theorem claim_C2_stale_active_reachable :
    registerWizeProvider initialState pA =
      .ok ⟨[pA], some pA, some "a"⟩ [⟨pA, ⟨[pA], some pA, some "a"⟩⟩] ∧
    releaseHandle ⟨[pA], some pA, some "a"⟩ pA =
      .err .invalidProvider ⟨[], some pA, some "a"⟩ [] ∧
    releaseHandle ⟨[], some pA, some "a"⟩ pA =
      .ok ⟨[], some pA, some "a"⟩ [] ∧
    (⟨[], some pA, some "a"⟩ : WizeState)._providers = [] ∧
    (⟨[], some pA, some "a"⟩ : WizeState)._activeProvider = some pA := by
  refine ⟨rfl, rfl, rfl, rfl, rfl⟩

/-- C7 counterexample: from the reachable state where `pA` was registered
twice, invoking the release handle a second time is not a no-op — it
removes the remaining occurrence and then throws from the setter. -/
theorem claim_C7_counterexample :
    ¬ (releaseHandle ((releaseHandle ⟨[pA, pA], some pA, some "a"⟩ pA).state) pA =
        .ok ((releaseHandle ⟨[pA, pA], some pA, some "a"⟩ pA).state) []) := by
  decide

/-- C7 amended: when the released provider occurs at most once in
`_providers` (no duplicate registration of the same object), a second
invocation of the handle is a no-op: state unchanged, normal return, no
event. -/
theorem claim_C7_release_idempotent (s : WizeState) (p : WizeProvider)
    (h : s._providers.count p ≤ 1) :
    releaseHandle ((releaseHandle s p).state) p =
      .ok ((releaseHandle s p).state) [] := by
  by_cases hmem : p ∈ s._providers
  · have h0 : p ∉ s._providers.erase p := by
      rw [← List.count_eq_zero, List.count_erase_self]
      omega
    have hst := releaseHandle_state_providers s p hmem
    exact releaseHandle_not_mem _ _ (by rw [hst]; exact h0)
  · rw [releaseHandle_not_mem s p hmem]
    exact releaseHandle_not_mem s p hmem

theorem claim_C7_witness :
    releaseHandle ((releaseHandle ⟨[pA, pB], some pB, some "b"⟩ pA).state) pA =
      .ok ((releaseHandle ⟨[pA, pB], some pB, some "b"⟩ pA).state) [] :=
  claim_C7_release_idempotent ⟨[pA, pB], some pB, some "b"⟩ pA (by decide)

/-- C9: every event fired by any of the three mutation entry points
carries a dispatch-time snapshot in which `_activeProvider` already holds
the fired provider and the context key already holds its id, and that
snapshot is the state in which the call ends — so a subscriber reading
`activeProvider` inside its callback sees exactly the notified value. -/
theorem claim_C9_fired_state_consistent (s : WizeState)
    (pr : Option WizeProvider) (p : WizeProvider) :
    (∀ f ∈ (setActiveProvider s pr).fired,
        f.snapshot._activeProvider = some f.value ∧
        f.snapshot.contextKey = some f.value.id ∧
        f.snapshot = (setActiveProvider s pr).state) ∧
    (∀ f ∈ (registerWizeProvider s p).fired,
        f.snapshot._activeProvider = some f.value ∧
        f.snapshot.contextKey = some f.value.id ∧
        f.snapshot = (registerWizeProvider s p).state) ∧
    (∀ f ∈ (releaseHandle s p).fired,
        f.snapshot._activeProvider = some f.value ∧
        f.snapshot.contextKey = some f.value.id ∧
        f.snapshot = (releaseHandle s p).state) := by
  refine ⟨setActiveProvider_fired_consistent s pr, ?_, ?_⟩
  · unfold registerWizeProvider
    dsimp only
    split
    · exact setActiveProvider_fired_consistent _ _
    · intro f hf
      simp [OpResult.fired] at hf
  · unfold releaseHandle
    split
    · dsimp only
      split
      · exact setActiveProvider_fired_consistent _ _
      · intro f hf
        simp [OpResult.fired] at hf
    · intro f hf
      simp [OpResult.fired] at hf

theorem claim_C9_witness :
    (Fire.mk pA ⟨[pA], some pA, some "a"⟩).snapshot._activeProvider =
        some (Fire.mk pA ⟨[pA], some pA, some "a"⟩).value ∧
    (Fire.mk pA ⟨[pA], some pA, some "a"⟩).snapshot.contextKey =
        some (Fire.mk pA ⟨[pA], some pA, some "a"⟩).value.id ∧
    (Fire.mk pA ⟨[pA], some pA, some "a"⟩).snapshot =
        (setActiveProvider ⟨[pA], some pA, some "a"⟩ (some pA)).state :=
  (claim_C9_fired_state_consistent ⟨[pA], some pA, some "a"⟩ (some pA) pA).1
    (Fire.mk pA ⟨[pA], some pA, some "a"⟩) (by decide)

/-- C10: the static `enabled` getter returns the value cached from
storage at class-load time; the static setter writes the persistent
store but never the cache, so a read after a write still yields the
startup value. -/
theorem claim_C10_preview_getter_frozen (storage : String → Option String) (b : Bool) :
    ((loadWizePreview storage).setEnabled storage b).1.enabled =
      (loadWizePreview storage).enabled ∧
    (loadWizePreview storage).enabled = (storage wizePreviewKey == some "true") ∧
    ((loadWizePreview storage).setEnabled storage b).2 wizePreviewKey =
      some (if b then "true" else "false") := by
  refine ⟨rfl, rfl, ?_⟩
  simp [WizePreview.setEnabled]
